import Mathlib

/-!
Verification of the frame decoder and command mapper of the
joystick-mouse receiver (`src/joystick-mouse/src/main.rs`).

The receiver loop reads a `\r`-delimited record from the serial port,
decodes it as UTF-8 text, splits it on whitespace, parses every token
as an `i32`, checks that there are exactly 7 fields, decodes click /
axis / sensitivity / scroll, and issues mouse actions.  The embedding
below transcribes that loop body; machine integers are modelled as
`Int` with explicit two's-complement wrapping where Rust release-mode
overflow semantics matter.
-/

namespace JoystickMouse

/-- Smallest `i32` value. -/
def i32Min : Int := -(2 ^ 31)

/-- Largest `i32` value. -/
def i32Max : Int := 2 ^ 31 - 1

/-- Two's-complement wrap of an integer into the `i32` range
(Rust release-mode overflow semantics). -/
def wrap32 (n : Int) : Int := (n + 2 ^ 31) % 2 ^ 32 - 2 ^ 31

/-- Model of Rust's `str::parse::<i32>` on the digit part: all
characters must be ASCII digits and there must be at least one. -/
def digitsVal (cs : List Char) : Option Nat :=
  if cs = [] then none
  else if cs.all (fun c => c.isDigit) then
    some (cs.foldl (fun a c => a * 10 + (c.toNat - 48)) 0)
  else none

/-- Model of Rust's `str::parse::<i32>`: an optional `+`/`-` sign
followed by one or more ASCII digits, value required to fit in `i32`. -/
def parseI32 (s : String) : Option Int :=
  let signAndRest : Int × List Char :=
    match s.toList with
    | '+' :: r => (1, r)
    | '-' :: r => (-1, r)
    | r => (1, r)
  match digitsVal signAndRest.2 with
  | none => none
  | some n =>
    let v : Int := signAndRest.1 * n
    if i32Min ≤ v ∧ v ≤ i32Max then some v else none

/-- Helper for `splitWhitespace`: walk the characters accumulating the
current (reversed) token; a whitespace character ends the token. -/
def wordsAux : List Char → List Char → List String
  | [], acc => if acc.isEmpty then [] else [String.mk acc.reverse]
  | c :: cs, acc =>
    if c.isWhitespace then
      if acc.isEmpty then wordsAux cs []
      else String.mk acc.reverse :: wordsAux cs []
    else wordsAux cs (c :: acc)

/-- Model of Rust's `str::split_whitespace`: the maximal runs of
non-whitespace characters, in order (empty substrings dropped). -/
def splitWhitespace (s : String) : List String :=
  wordsAux s.toList []

/-- Parse every token as an `i32`; `none` when any token fails
(in the source this is the `.unwrap()` inside the `map`). -/
def parseAll : List String → Option (List Int)
  | [] => some []
  | t :: ts =>
    match parseI32 t, parseAll ts with
    | some n, some ns => some (n :: ns)
    | _, _ => none

/-- The click state decoded from fields 1 and 2, line 69 of the source:
`match (l == 1, r == 1) { (false,false) => None, (_,true) => RIGHT,
(true,_) => LEFT }`. -/
inductive ClickState where
  | none
  | left
  | right
deriving DecidableEq, Repr

/-- Click decode from the left/right flag fields. -/
def clickDecode (l r : Int) : ClickState :=
  match l == 1, r == 1 with
  | false, false => ClickState.none
  | _, true => ClickState.right
  | true, _ => ClickState.left

/-- Rust `i32::clamp(self, lo, hi)` (for `lo ≤ hi`). -/
def i32clamp (v lo hi : Int) : Int :=
  if v < lo then lo else if v > hi then hi else v

/-- Recenter an axis by subtracting 512 (wrapping `i32` subtraction)
and clamp the result to `[-511, 511]` — the first two steps of the
axis decode at lines 75–88 of the source. -/
def recenterClamp (raw : Int) : Int :=
  i32clamp (wrap32 (raw - 512)) (-511) 511

/-- Axis decode, lines 75–88 of the source: recenter, clamp, then zero
the value when its absolute value is below 40 (square deadzone). -/
def axisDecode (raw : Int) : Int :=
  let v := recenterClamp raw
  if v.natAbs < 40 then 0 else v

/-- Scroll decode, lines 93–98 of the source. -/
def scrollDecode (u d : Int) : Int :=
  match u == 1, d == 1 with
  | false, false => 0
  | true, true => 0
  | true, false => 1
  | false, true => -1

/-- Rust `i32::checked_div`: `none` on division by zero or on the
overflowing case `i32::MIN / -1`; otherwise division truncating
toward zero. -/
def checkedDiv (x s : Int) : Option Int :=
  if s = 0 ∨ (x = i32Min ∧ s = -1) then none else some (x.tdiv s)

/-- The per-axis displacement added to the cursor position, lines
103–108 of the source: `axis.checked_div(sensitivity).unwrap_or(0)`. -/
def axisDisplacement (raw s : Int) : Int :=
  (checkedDiv (axisDecode raw) s).getD 0

/-- One action issued to the pointer device. -/
inductive PtrAction where
  | moveTo (x y : Int)
  | clickBtn (b : ClickState)
  | wheel (d : Int)
deriving DecidableEq, Repr

/-- Outcome of one loop iteration on a decoded-to-text record:
the process panics (an `.unwrap()` fails), the iteration is skipped
(`continue`), or a list of pointer actions is issued in order. -/
inductive StepResult where
  | panicked
  | skipped
  | acted (trace : List PtrAction)
deriving DecidableEq, Repr

/-- The loop body of `main` (lines 60–113) on one record, given the
host cursor position read from the mouse.  `data.clone().count()`
forces every `parse::<i32>().unwrap()`, so a failing token panics
before the arity check; a token count other than 7 skips the record;
otherwise the frame is decoded and the actions are issued in source
order: move, then click when present, then wheel unconditionally. -/
def processRecord (posx posy : Int) (record : String) : StepResult :=
  match parseAll ( splitWhitespace record) with
  | Option.none => StepResult.panicked
  | some nums =>
    match nums with
    | [l, r, rawx, rawy, s, u, d] =>
      let click := clickDecode l r
      let scroll := scrollDecode u d
      let dx := axisDisplacement rawx s
      let dy := axisDisplacement rawy s
      StepResult.acted
        ([PtrAction.moveTo (wrap32 (posx + dx)) (wrap32 (posy + dy))]
          ++ (match click with
              | ClickState.none => []
              | b => [PtrAction.clickBtn b])
          ++ [PtrAction.wheel scroll])
    | _ => StepResult.skipped

/-! ## Helper lemmas -/

/-- The recenter-and-clamp stage always lands in `[-511, 511]`. -/
theorem recenterClamp_mem (raw : Int) :
    -511 ≤ recenterClamp raw ∧ recenterClamp raw ≤ 511 := by
  unfold recenterClamp i32clamp
  split_ifs <;> omega

/-- The full axis decode always lands in `[-511, 511]`. -/
theorem axisDecode_natAbs_le (raw : Int) : (axisDecode raw).natAbs ≤ 511 := by
  have h := recenterClamp_mem raw
  simp only [axisDecode]
  split_ifs <;> omega

/-- A failing token makes the whole token parse fail. -/
theorem parseAll_eq_none_of_mem (l : List String) (t : String)
    (ht : t ∈ l) (hp : parseI32 t = none) : parseAll l = none := by
  induction l with
  | nil => cases ht
  | cons a as ih =>
    unfold parseAll
    rcases List.mem_cons.mp ht with rfl | h
    · rw [hp]
    · rw [ih h]
      cases parseI32 a <;> rfl

/-- Any record with a token that does not parse as an `i32` makes the
loop body panic: `data.clone().count()` forces every
`parse::<i32>().unwrap()` before the arity check. -/
theorem nonNumericToken_forces_panic (posx posy : Int) (record t : String)
    (ht : t ∈ splitWhitespace record) (hp : parseI32 t = none) :
    processRecord posx posy record = StepResult.panicked := by
  unfold processRecord
  rw [parseAll_eq_none_of_mem _ t ht hp]

/-! ## Claims -/

/-- C1: the spec says a record containing a non-numeric token is
rejected with `InvalidNumber` and skipped without an unrecoverable
error.  The code instead panics: the `parse::<i32>().unwrap()` inside
the token `map` is forced by `data.clone().count()`, aborting the
process on the record `"1 0 abc 512 2 0 0\r"` instead of skipping it. -/
theorem C1_nonNumericToken_panics :
    processRecord 0 0 "1 0 abc 512 2 0 0\r" = StepResult.panicked ∧
    processRecord 0 0 "1 0 abc 512 2 0 0\r" ≠ StepResult.skipped := by
  constructor
  · decide
  · decide

/-- C2 counterexample: the claim says every raw value in `[472, 551]`
decodes to 0, but raw 472 recenters to `-40`, which the strict
deadzone test `|v| < 40` does not suppress. -/
theorem C2_counterexample : axisDecode 472 = -40 ∧ axisDecode 472 ≠ 0 := by
  constructor
  · decide
  · decide

/-- C2 (amended): for every raw axis value in `[473, 551]` the decoded
axis value after recenter, clamp and deadzone suppression is 0. -/
theorem C2_deadzone_zero (r : Int) (h1 : 473 ≤ r) (h2 : r ≤ 551) :
    axisDecode r = 0 := by
  simp only [axisDecode, recenterClamp, i32clamp, wrap32]
  split_ifs <;> omega

/-- C2 witness: raw 512 is in `[473, 551]` and decodes to 0. -/
theorem C2_deadzone_zero_witness :
    (473 : Int) ≤ 512 ∧ (512 : Int) ≤ 551 ∧ axisDecode 512 = 0 :=
  ⟨by decide, by decide, C2_deadzone_zero 512 (by decide) (by decide)⟩

/-- C4: for every `i32` raw axis value, recentering by subtracting 512
and clamping to `[-511, 511]` yields a value in `[-511, 511]`. -/
theorem C4_recenterClamp_in_range (r : Int) (h1 : i32Min ≤ r) (h2 : r ≤ i32Max) :
    -511 ≤ recenterClamp r ∧ recenterClamp r ≤ 511 :=
  recenterClamp_mem r

/-- C4 witness: raw 2000 is a valid `i32`, its recenter-and-clamp lies
in `[-511, 511]`, and it is in fact exactly 511. -/
theorem C4_recenterClamp_in_range_witness :
    i32Min ≤ 2000 ∧ (2000 : Int) ≤ i32Max ∧
    (-511 ≤ recenterClamp 2000 ∧ recenterClamp 2000 ≤ 511) ∧
    recenterClamp 2000 = 511 :=
  ⟨by decide, by decide, C4_recenterClamp_in_range 2000 (by decide) (by decide),
    by decide⟩

/-- C10: the decoded axis value is either exactly 0 or has absolute
value in `[40, 511]`; it is never strictly between 0 and 40 in
magnitude. -/
theorem C10_deadzone_invariant (raw : Int) :
    axisDecode raw = 0 ∨
    (40 ≤ (axisDecode raw).natAbs ∧ (axisDecode raw).natAbs ≤ 511) := by
  have h := recenterClamp_mem raw
  simp only [axisDecode]
  split_ifs with hlt
  · exact Or.inl rfl
  · right
    omega

/-- C5: a zero sensitivity divisor yields displacement 0 for the axis
(`checked_div` returns `None`, defaulted to 0 — no crash); a nonzero
divisor yields the axis value divided by it, truncating toward zero. -/
theorem C5_sensitivity_division (raw s : Int) :
    (s = 0 → axisDisplacement raw s = 0) ∧
    (s ≠ 0 → axisDisplacement raw s = (axisDecode raw).tdiv s) := by
  have hx := axisDecode_natAbs_le raw
  constructor
  · rintro rfl
    simp [axisDisplacement, checkedDiv]
  · intro hs
    unfold axisDisplacement checkedDiv
    have hne : ¬ (s = 0 ∨ (axisDecode raw = i32Min ∧ s = -1)) := by
      rintro (rfl | ⟨hmin, _⟩)
      · exact hs rfl
      · unfold i32Min at hmin
        omega
    rw [if_neg hne, Option.getD_some]

/-- C5 witness: with raw X 700, sensitivity 0 gives displacement 0 and
sensitivity 2 gives the truncating division of the decoded axis. -/
theorem C5_sensitivity_division_witness :
    axisDisplacement 700 0 = 0 ∧
    axisDisplacement 700 2 = (axisDecode 700).tdiv 2 :=
  ⟨(C5_sensitivity_division 700 0).1 rfl,
    (C5_sensitivity_division 700 2).2 (by decide)⟩

/-- C6: the click decode maps `(L=0, R=0)` to no click, any frame with
`R=1` to a right click (so right wins when both flags are set), and
`(L=1, R=0)` to a left click. -/
theorem C6_click_decode (l r : Int) :
    (l = 0 → r = 0 → clickDecode l r = ClickState.none) ∧
    (r = 1 → clickDecode l r = ClickState.right) ∧
    (l = 1 → r = 0 → clickDecode l r = ClickState.left) := by
  refine ⟨?_, ?_, ?_⟩
  · rintro rfl rfl
    rfl
  · rintro rfl
    unfold clickDecode
    cases h : (l == 1) <;> rfl
  · rintro rfl rfl
    rfl

/-- C6 witness: both flags set give a right click; `(0,0)` gives none;
`(1,0)` gives a left click. -/
theorem C6_click_decode_witness :
    clickDecode 1 1 = ClickState.right ∧
    clickDecode 0 0 = ClickState.none ∧
    clickDecode 1 0 = ClickState.left :=
  ⟨(C6_click_decode 1 1).2.1 rfl, (C6_click_decode 0 0).1 rfl rfl,
    (C6_click_decode 1 0).2.2 rfl rfl⟩

/-- C7: the scroll decode maps `(0,0)` to 0, `(1,1)` to 0 (the flags
cancel), `(1,0)` to +1 and `(0,1)` to -1. -/
theorem C7_scroll_decode :
    scrollDecode 0 0 = 0 ∧ scrollDecode 1 1 = 0 ∧
    scrollDecode 1 0 = 1 ∧ scrollDecode 0 1 = -1 := by
  refine ⟨rfl, rfl, rfl, rfl⟩

/-- C9: every per-axis displacement actually added to the cursor
position lies in `[-511, 511]`, for every raw axis value and every
sensitivity divisor. -/
theorem C9_displacement_bounded (raw s : Int) :
    -511 ≤ axisDisplacement raw s ∧ axisDisplacement raw s ≤ 511 := by
  have hx := axisDecode_natAbs_le raw
  unfold axisDisplacement checkedDiv
  split_ifs with h
  · simp only [Option.getD_none]
    omega
  · have habs : ((axisDecode raw).tdiv s).natAbs ≤ (axisDecode raw).natAbs := by
      rw [Int.natAbs_tdiv]
      exact Nat.div_le_self _ _
    simp only [Option.getD_some]
    omega

/-- C8: a record whose tokens all parse as `i32` but whose token count
is not 7 is skipped: no frame is decoded and no pointer action is
issued. -/
theorem C8_wrong_arity_skipped (posx posy : Int) (record : String)
    (nums : List Int) (h : parseAll ( splitWhitespace record) = some nums)
    (hlen : nums.length ≠ 7) :
    processRecord posx posy record = StepResult.skipped := by
  unfold processRecord
  rw [h]
  rcases nums with _ | ⟨a, _ | ⟨b, _ | ⟨c, _ | ⟨d, _ | ⟨e, _ | ⟨f, _ | ⟨g, _ | ⟨h8, t⟩⟩⟩⟩⟩⟩⟩⟩ <;>
    first
      | rfl
      | exact absurd rfl hlen

/-- C8 witness: the six-token record `"1 2 3 4 5 6\r"` parses token-wise
but is skipped. -/
theorem C8_wrong_arity_skipped_witness :
    parseAll ( splitWhitespace "1 2 3 4 5 6\r") = some [1, 2, 3, 4, 5, 6] ∧
    ([(1 : Int), 2, 3, 4, 5, 6].length ≠ 7) ∧
    processRecord 0 0 "1 2 3 4 5 6\r" = StepResult.skipped :=
  ⟨by decide, by decide,
    C8_wrong_arity_skipped 0 0 _ [1, 2, 3, 4, 5, 6] (by decide) (by decide)⟩

/-- C3 counterexample: the claim says a scroll action is issued only
when the scroll delta is nonzero, but on the record
`"0 0 512 512 2 0 0\r"` the decoded scroll delta is 0 and the issued
action trace still ends with a wheel action. -/
theorem C3_counterexample :
    scrollDecode 0 0 = 0 ∧
    processRecord 0 0 "0 0 512 512 2 0 0\r" =
      StepResult.acted [PtrAction.moveTo 0 0, PtrAction.wheel 0] ∧
    PtrAction.wheel 0 ∈ [PtrAction.moveTo 0 0, PtrAction.wheel 0] := by
  refine ⟨rfl, by decide, by decide⟩

/-- C3 (amended): on every successfully decoded frame the action trace
is exactly: one move with the frame's displacements first, then a
click action exactly when the click state decoded from the frame's
flag fields is not none (and with that click state), then one wheel
action with the frame's decoded scroll delta, issued unconditionally
(its delta may be 0). -/
theorem C3_action_order (posx posy : Int) (record : String)
    (trace : List PtrAction)
    (h : processRecord posx posy record = StepResult.acted trace) :
    ∃ (l r rawx rawy s u d : Int),
      parseAll ( splitWhitespace record) = some [l, r, rawx, rawy, s, u, d] ∧
      trace =
        [PtrAction.moveTo (wrap32 (posx + axisDisplacement rawx s))
            (wrap32 (posy + axisDisplacement rawy s))] ++
        (if clickDecode l r = ClickState.none then []
          else [PtrAction.clickBtn (clickDecode l r)]) ++
        [PtrAction.wheel (scrollDecode u d)] := by
  unfold processRecord at h
  cases hp : parseAll ( splitWhitespace record) with
  | none =>
    rw [hp] at h
    exact StepResult.noConfusion h
  | some nums =>
    rw [hp] at h
    rcases nums with _ | ⟨l, _ | ⟨r, _ | ⟨rawx, _ | ⟨rawy, _ | ⟨s, _ | ⟨u, _ | ⟨d, _ | ⟨e8, t⟩⟩⟩⟩⟩⟩⟩⟩ <;>
      first
        | exact StepResult.noConfusion h
        | (injection h with h'
           refine ⟨l, r, rawx, rawy, s, u, d, rfl, ?_⟩
           rw [← h']
           cases hclick : clickDecode l r <;> simp [hclick])

/-- C3 witness: the record `"1 0 700 300 2 1 0\r"` decodes to a left
click with scroll +1, and its action trace is move, then the decoded
click, then the decoded wheel delta. -/
theorem C3_action_order_witness :
    processRecord 0 0 "1 0 700 300 2 1 0\r" =
      StepResult.acted [PtrAction.moveTo 94 (-106),
        PtrAction.clickBtn ClickState.left, PtrAction.wheel 1] ∧
    (∃ (l r rawx rawy s u d : Int),
      parseAll ( splitWhitespace "1 0 700 300 2 1 0\r") =
        some [l, r, rawx, rawy, s, u, d] ∧
      [PtrAction.moveTo 94 (-106), PtrAction.clickBtn ClickState.left,
          PtrAction.wheel 1] =
        [PtrAction.moveTo (wrap32 (0 + axisDisplacement rawx s))
            (wrap32 (0 + axisDisplacement rawy s))] ++
        (if clickDecode l r = ClickState.none then []
          else [PtrAction.clickBtn (clickDecode l r)]) ++
        [PtrAction.wheel (scrollDecode u d)]) :=
  ⟨by decide,
    C3_action_order 0 0 "1 0 700 300 2 1 0\r"
      [PtrAction.moveTo 94 (-106), PtrAction.clickBtn ClickState.left,
        PtrAction.wheel 1] (by decide)⟩

end JoystickMouse
